import Mathlib

/-!
Verification of the PyMD4C event-marshalling bridge (`generic_parser.c`,
`html_renderer.c`) against its natural-language specification.

The C sources are shallowly embedded: machine integers become `Nat`
(with explicit `% 2 ^ 32` where the C type is a 32-bit unsigned quantity),
`char *` slices become `List Char`, Python objects become a small inductive
value type, and the fallible Python/C API calls whose failures are pure
resource exhaustion (allocation failure inside `Py_BuildValue`,
`PyList_Append`, `realloc`) are modelled on their success path, which is the
path every claim under consideration conditions on.

The MD4C engine itself is an external collaborator: a parse run is embedded
as the list of events the engine pushes plus a flag saying whether the engine
reports an internal failure, and the HTML renderer's engine is embedded as a
function from the input bytes to the list of output chunks it emits plus its
return status.
-/

namespace PyMD4C

/-! ## Growable output accumulator (`html_renderer.c`, `DynamicBuffer`) -/

/-- The `DynamicBuffer` from `html_renderer.c`.  `data` models the valid region
`data[0 .. pos)` of the C allocation; `len` is the allocated capacity. -/
structure DynamicBuffer where
  data : List Char
  pos : Nat
  len : Nat
deriving DecidableEq, Repr

/-- The `DYNAMICBUFFER_INITSIZE` from `html_renderer.c`. -/
def DYNAMICBUFFER_INITSIZE : Nat := 256

/-- The `buffer_init`, on the success path of `malloc`. -/
def buffer_init : DynamicBuffer :=
  { data := [], pos := 0, len := DYNAMICBUFFER_INITSIZE }

/-- The `buffer_grow`, on the success path of `realloc`: the capacity doubles,
the contents and write position are unchanged. -/
def buffer_grow (b : DynamicBuffer) : DynamicBuffer :=
  { b with len := b.len * 2 }

/-- The `while (len > buf->len - buf->pos) buffer_grow(buf)` loop at the top
of `buffer_append`.  The `0 < b.len` conjunct records the invariant of every
buffer reachable from `buffer_init` (capacity starts at 256 and doubling
never produces 0); with a zero capacity and a nonzero request the C loop
would never exit, so the guard keeps the Lean function total exactly on the
reachable states. -/
def buffer_growLoop (b : DynamicBuffer) (n : Nat) : DynamicBuffer :=
  if _h : 0 < b.len ∧ b.len - b.pos < n then
    buffer_growLoop (buffer_grow b) n
  else b
termination_by n + b.pos - b.len
decreasing_by simp [buffer_grow]; omega

/-- The `buffer_append` on the success path: grow until the chunk fits, then
copy the chunk in after the current position and advance `pos`. -/
def buffer_append (b : DynamicBuffer) (chunk : List Char) : DynamicBuffer :=
  let g := buffer_growLoop b chunk.length
  { g with data := g.data ++ chunk, pos := g.pos + chunk.length }

lemma buffer_growLoop_spec (b : DynamicBuffer) (n : Nat) :
    (buffer_growLoop b n).data = b.data ∧
    (buffer_growLoop b n).pos = b.pos ∧
    b.len ≤ (buffer_growLoop b n).len ∧
    (0 < b.len → 0 < (buffer_growLoop b n).len ∧
      n ≤ (buffer_growLoop b n).len - (buffer_growLoop b n).pos) := by
  induction b, n using buffer_growLoop.induct with
  | case1 b n h ih =>
    rw [buffer_growLoop, dif_pos h]
    refine ⟨ih.1, ih.2.1, ?_, fun _ => ih.2.2.2 (by simp [buffer_grow]; omega)⟩
    calc b.len ≤ (buffer_grow b).len := by simp [buffer_grow]; omega
      _ ≤ _ := ih.2.2.1
  | case2 b n h =>
    rw [buffer_growLoop, dif_neg h]
    exact ⟨rfl, rfl, le_refl _, fun hb => ⟨hb, by omega⟩⟩

lemma buffer_append_data (b : DynamicBuffer) (chunk : List Char) :
    (buffer_append b chunk).data = b.data ++ chunk ∧
    (buffer_append b chunk).pos = b.pos + chunk.length := by
  have h := buffer_growLoop_spec b chunk.length
  simp [buffer_append, h.1, h.2.1]

lemma buffer_foldl_append (chunks : List (List Char)) : ∀ b : DynamicBuffer,
    (chunks.foldl buffer_append b).data = b.data ++ chunks.flatten ∧
    (chunks.foldl buffer_append b).pos = b.pos + (chunks.map List.length).sum := by
  induction chunks with
  | nil => intro b; simp
  | cons c cs ih =>
    intro b
    have hb := buffer_append_data b c
    have := ih (buffer_append b c)
    constructor
    · rw [List.foldl_cons, this.1, hb.1]; simp
    · rw [List.foldl_cons, this.2, hb.2]; simp; omega

/-- C5: appending `M` chunks whose sizes sum to `S` yields a buffer of
length exactly `S` whose contents are the concatenation of the chunks in
append order, for every chunk size distribution (zero-length chunks and
capacity-boundary chunks included, since the statement quantifies over all
chunk lists). -/
theorem accumulator_concatenates_chunks (chunks : List (List Char)) :
    (chunks.foldl buffer_append buffer_init).pos = (chunks.map List.length).sum ∧
    (chunks.foldl buffer_append buffer_init).data = chunks.flatten ∧
    (chunks.foldl buffer_append buffer_init).data.length =
      (chunks.map List.length).sum := by
  have h := buffer_foldl_append chunks buffer_init
  refine ⟨?_, ?_, ?_⟩
  · rw [h.2]; simp [buffer_init]
  · rw [h.1]; simp [buffer_init]
  · rw [h.1]; simp [buffer_init, List.length_flatten]

/-- C9: `length ≤ capacity` is established by `buffer_init`
(`pos = 0 ≤ 256 = len`), preserved by `buffer_grow` and by `buffer_append`,
and the capacity never decreases across any sequence of appends performed by
one render call. -/
theorem accumulator_invariant :
    buffer_init.pos = 0 ∧ buffer_init.len = 256 ∧ buffer_init.pos ≤ buffer_init.len ∧
    (∀ b : DynamicBuffer, b.pos ≤ b.len →
      (buffer_grow b).pos ≤ (buffer_grow b).len ∧ b.len ≤ (buffer_grow b).len) ∧
    (∀ (b : DynamicBuffer) (chunk : List Char), 0 < b.len → b.pos ≤ b.len →
      (buffer_append b chunk).pos ≤ (buffer_append b chunk).len ∧
      b.len ≤ (buffer_append b chunk).len ∧ 0 < (buffer_append b chunk).len) ∧
    (∀ (chunks : List (List Char)) (b : DynamicBuffer), 0 < b.len →
      b.len ≤ (chunks.foldl buffer_append b).len) := by
  refine ⟨rfl, rfl, by simp [buffer_init], ?_, ?_, ?_⟩
  · intro b hb
    constructor
    · simp [buffer_grow]; omega
    · simp [buffer_grow]; omega
  · intro b chunk hlen hinv
    have h := buffer_growLoop_spec b chunk.length
    have hfit := h.2.2.2 hlen
    refine ⟨?_, ?_, ?_⟩
    · simp [buffer_append, h.2.1]
      omega
    · simp [buffer_append]
      exact h.2.2.1
    · simp [buffer_append]
      omega
  · intro chunks
    induction chunks with
    | nil => intro b _; simp
    | cons c cs ih =>
      intro b hb
      have h := buffer_growLoop_spec b c.length
      have hfit := h.2.2.2 hb
      have step : b.len ≤ (buffer_append b c).len ∧ 0 < (buffer_append b c).len := by
        constructor
        · simp [buffer_append]; exact h.2.2.1
        · simp [buffer_append]; omega
      calc b.len ≤ (buffer_append b c).len := step.1
        _ ≤ _ := ih (buffer_append b c) step.2

/-- Witness for `accumulator_invariant` at a concrete buffer and chunk list. -/
theorem accumulator_invariant_witness :
    (buffer_append buffer_init ['a', 'b']).pos ≤ (buffer_append buffer_init ['a', 'b']).len ∧
    buffer_init.len ≤ ([['a'], ['b', 'c']].foldl buffer_append buffer_init).len :=
  ⟨(accumulator_invariant.2.2.2.2.1 buffer_init ['a', 'b'] (by decide) (by decide)).1,
   accumulator_invariant.2.2.2.2.2 [['a'], ['b', 'c']] buffer_init (by decide)⟩

/-! ## Flag translator (`GenericParser_init`, `HTMLRenderer_init`)

The `MD_FLAG_*` / `MD_HTML_FLAG_*` constants live in the external engine
headers `md4c.h` / `md4c-html.h`; their values are reproduced here.  The
combination constants (`MD_FLAG_PERMISSIVEAUTOLINKS`, `MD_FLAG_NOHTML`,
`MD_DIALECT_GITHUB`) are, as in the header, ORs of the primitive bits. -/

def MD_FLAG_COLLAPSEWHITESPACE : Nat := 0x0001
def MD_FLAG_PERMISSIVEATXHEADERS : Nat := 0x0002
def MD_FLAG_PERMISSIVEURLAUTOLINKS : Nat := 0x0004
def MD_FLAG_PERMISSIVEEMAILAUTOLINKS : Nat := 0x0008
def MD_FLAG_NOINDENTEDCODEBLOCKS : Nat := 0x0010
def MD_FLAG_NOHTMLBLOCKS : Nat := 0x0020
def MD_FLAG_NOHTMLSPANS : Nat := 0x0040
def MD_FLAG_TABLES : Nat := 0x0100
def MD_FLAG_STRIKETHROUGH : Nat := 0x0200
def MD_FLAG_PERMISSIVEWWWAUTOLINKS : Nat := 0x0400
def MD_FLAG_TASKLISTS : Nat := 0x0800
def MD_FLAG_LATEXMATHSPANS : Nat := 0x1000
def MD_FLAG_WIKILINKS : Nat := 0x2000
def MD_FLAG_UNDERLINE : Nat := 0x4000

def MD_FLAG_PERMISSIVEAUTOLINKS : Nat :=
  MD_FLAG_PERMISSIVEEMAILAUTOLINKS ||| MD_FLAG_PERMISSIVEURLAUTOLINKS |||
    MD_FLAG_PERMISSIVEWWWAUTOLINKS

def MD_FLAG_NOHTML : Nat := MD_FLAG_NOHTMLBLOCKS ||| MD_FLAG_NOHTMLSPANS

def MD_DIALECT_GITHUB : Nat :=
  MD_FLAG_PERMISSIVEAUTOLINKS ||| MD_FLAG_TABLES ||| MD_FLAG_STRIKETHROUGH |||
    MD_FLAG_TASKLISTS

def MD_HTML_FLAG_DEBUG : Nat := 0x0001
def MD_HTML_FLAG_VERBATIM_ENTITIES : Nat := 0x0002
def MD_HTML_FLAG_SKIP_UTF8_BOM : Nat := 0x0004
def MD_HTML_FLAG_XHTML : Nat := 0x0008

/-- The keyword arguments accepted by `GenericParser.__init__`: a raw
`parser_flags` bitmask plus one boolean per recognized option. -/
structure ParserOptions where
  parser_flags : Nat
  collapse_whitespace : Bool
  permissive_atx_headers : Bool
  permissive_url_autolinks : Bool
  permissive_email_autolinks : Bool
  no_indented_code_blocks : Bool
  no_html_blocks : Bool
  no_html_spans : Bool
  tables : Bool
  strikethrough : Bool
  permissive_www_autolinks : Bool
  tasklists : Bool
  latex_math_spans : Bool
  wikilinks : Bool
  underline : Bool
  permissive_autolinks : Bool
  no_html : Bool
  dialect_github : Bool
deriving DecidableEq, Repr

/-- The `GenericParser_init` from `generic_parser.c`: the stored
`self->parser_flags`, built by starting from the raw mask and OR-ing in one
fixed constant per boolean that is set. -/
def GenericParser_init (o : ParserOptions) : Nat :=
  let f := o.parser_flags
  let f := if o.collapse_whitespace then f ||| MD_FLAG_COLLAPSEWHITESPACE else f
  let f := if o.permissive_atx_headers then f ||| MD_FLAG_PERMISSIVEATXHEADERS else f
  let f := if o.permissive_url_autolinks then f ||| MD_FLAG_PERMISSIVEURLAUTOLINKS else f
  let f := if o.permissive_email_autolinks then f ||| MD_FLAG_PERMISSIVEEMAILAUTOLINKS else f
  let f := if o.no_indented_code_blocks then f ||| MD_FLAG_NOINDENTEDCODEBLOCKS else f
  let f := if o.no_html_blocks then f ||| MD_FLAG_NOHTMLBLOCKS else f
  let f := if o.no_html_spans then f ||| MD_FLAG_NOHTMLSPANS else f
  let f := if o.tables then f ||| MD_FLAG_TABLES else f
  let f := if o.strikethrough then f ||| MD_FLAG_STRIKETHROUGH else f
  let f := if o.permissive_www_autolinks then f ||| MD_FLAG_PERMISSIVEWWWAUTOLINKS else f
  let f := if o.tasklists then f ||| MD_FLAG_TASKLISTS else f
  let f := if o.latex_math_spans then f ||| MD_FLAG_LATEXMATHSPANS else f
  let f := if o.wikilinks then f ||| MD_FLAG_WIKILINKS else f
  let f := if o.underline then f ||| MD_FLAG_UNDERLINE else f
  let f := if o.permissive_autolinks then f ||| MD_FLAG_PERMISSIVEAUTOLINKS else f
  let f := if o.no_html then f ||| MD_FLAG_NOHTML else f
  let f := if o.dialect_github then f ||| MD_DIALECT_GITHUB else f
  f

/-- The OR of the per-boolean flag constants of the options that are set. -/
def parserOptionsMask (o : ParserOptions) : Nat :=
  (if o.collapse_whitespace then MD_FLAG_COLLAPSEWHITESPACE else 0) |||
  (if o.permissive_atx_headers then MD_FLAG_PERMISSIVEATXHEADERS else 0) |||
  (if o.permissive_url_autolinks then MD_FLAG_PERMISSIVEURLAUTOLINKS else 0) |||
  (if o.permissive_email_autolinks then MD_FLAG_PERMISSIVEEMAILAUTOLINKS else 0) |||
  (if o.no_indented_code_blocks then MD_FLAG_NOINDENTEDCODEBLOCKS else 0) |||
  (if o.no_html_blocks then MD_FLAG_NOHTMLBLOCKS else 0) |||
  (if o.no_html_spans then MD_FLAG_NOHTMLSPANS else 0) |||
  (if o.tables then MD_FLAG_TABLES else 0) |||
  (if o.strikethrough then MD_FLAG_STRIKETHROUGH else 0) |||
  (if o.permissive_www_autolinks then MD_FLAG_PERMISSIVEWWWAUTOLINKS else 0) |||
  (if o.tasklists then MD_FLAG_TASKLISTS else 0) |||
  (if o.latex_math_spans then MD_FLAG_LATEXMATHSPANS else 0) |||
  (if o.wikilinks then MD_FLAG_WIKILINKS else 0) |||
  (if o.underline then MD_FLAG_UNDERLINE else 0) |||
  (if o.permissive_autolinks then MD_FLAG_PERMISSIVEAUTOLINKS else 0) |||
  (if o.no_html then MD_FLAG_NOHTML else 0) |||
  (if o.dialect_github then MD_DIALECT_GITHUB else 0)

/-- The keyword arguments accepted by `HTMLRenderer.__init__`: both raw
bitmasks plus the parser-option and renderer-option booleans. -/
structure RendererOptions where
  parser_flags : Nat
  renderer_flags : Nat
  collapse_whitespace : Bool
  permissive_atx_headers : Bool
  permissive_url_autolinks : Bool
  permissive_email_autolinks : Bool
  no_indented_code_blocks : Bool
  no_html_blocks : Bool
  no_html_spans : Bool
  tables : Bool
  strikethrough : Bool
  permissive_www_autolinks : Bool
  tasklists : Bool
  latex_math_spans : Bool
  wikilinks : Bool
  underline : Bool
  permissive_autolinks : Bool
  no_html : Bool
  dialect_github : Bool
  debug : Bool
  verbatim_entities : Bool
  skip_utf8_bom : Bool
  xhtml : Bool
deriving DecidableEq, Repr

/-- The `HTMLRenderer_init` from `html_renderer.c`: the stored pair
`(self->parser_flags, self->renderer_flags)`. -/
def HTMLRenderer_init (o : RendererOptions) : Nat × Nat :=
  let f := o.parser_flags
  let f := if o.collapse_whitespace then f ||| MD_FLAG_COLLAPSEWHITESPACE else f
  let f := if o.permissive_atx_headers then f ||| MD_FLAG_PERMISSIVEATXHEADERS else f
  let f := if o.permissive_url_autolinks then f ||| MD_FLAG_PERMISSIVEURLAUTOLINKS else f
  let f := if o.permissive_email_autolinks then f ||| MD_FLAG_PERMISSIVEEMAILAUTOLINKS else f
  let f := if o.no_indented_code_blocks then f ||| MD_FLAG_NOINDENTEDCODEBLOCKS else f
  let f := if o.no_html_blocks then f ||| MD_FLAG_NOHTMLBLOCKS else f
  let f := if o.no_html_spans then f ||| MD_FLAG_NOHTMLSPANS else f
  let f := if o.tables then f ||| MD_FLAG_TABLES else f
  let f := if o.strikethrough then f ||| MD_FLAG_STRIKETHROUGH else f
  let f := if o.permissive_www_autolinks then f ||| MD_FLAG_PERMISSIVEWWWAUTOLINKS else f
  let f := if o.tasklists then f ||| MD_FLAG_TASKLISTS else f
  let f := if o.latex_math_spans then f ||| MD_FLAG_LATEXMATHSPANS else f
  let f := if o.wikilinks then f ||| MD_FLAG_WIKILINKS else f
  let f := if o.underline then f ||| MD_FLAG_UNDERLINE else f
  let f := if o.permissive_autolinks then f ||| MD_FLAG_PERMISSIVEAUTOLINKS else f
  let f := if o.no_html then f ||| MD_FLAG_NOHTML else f
  let f := if o.dialect_github then f ||| MD_DIALECT_GITHUB else f
  let r := o.renderer_flags
  let r := if o.debug then r ||| MD_HTML_FLAG_DEBUG else r
  let r := if o.verbatim_entities then r ||| MD_HTML_FLAG_VERBATIM_ENTITIES else r
  let r := if o.skip_utf8_bom then r ||| MD_HTML_FLAG_SKIP_UTF8_BOM else r
  let r := if o.xhtml then r ||| MD_HTML_FLAG_XHTML else r
  (f, r)

/-- The parser-option part of a `RendererOptions` record. -/
def rendererParserOptions (o : RendererOptions) : ParserOptions :=
  { parser_flags := o.parser_flags
    collapse_whitespace := o.collapse_whitespace
    permissive_atx_headers := o.permissive_atx_headers
    permissive_url_autolinks := o.permissive_url_autolinks
    permissive_email_autolinks := o.permissive_email_autolinks
    no_indented_code_blocks := o.no_indented_code_blocks
    no_html_blocks := o.no_html_blocks
    no_html_spans := o.no_html_spans
    tables := o.tables
    strikethrough := o.strikethrough
    permissive_www_autolinks := o.permissive_www_autolinks
    tasklists := o.tasklists
    latex_math_spans := o.latex_math_spans
    wikilinks := o.wikilinks
    underline := o.underline
    permissive_autolinks := o.permissive_autolinks
    no_html := o.no_html
    dialect_github := o.dialect_github }

/-- The OR of the per-boolean renderer flag constants that are set. -/
def rendererOptionsMask (o : RendererOptions) : Nat :=
  (if o.debug then MD_HTML_FLAG_DEBUG else 0) |||
  (if o.verbatim_entities then MD_HTML_FLAG_VERBATIM_ENTITIES else 0) |||
  (if o.skip_utf8_bom then MD_HTML_FLAG_SKIP_UTF8_BOM else 0) |||
  (if o.xhtml then MD_HTML_FLAG_XHTML else 0)

lemma lor_step (f m : Nat) (b : Bool) :
    (if b then f ||| m else f) = f ||| (if b then m else 0) := by
  cases b <;> simp

lemma land_lor_self_left (a b : Nat) : a &&& (a ||| b) = a := by
  apply Nat.eq_of_testBit_eq
  intro i
  simp only [Nat.testBit_and, Nat.testBit_or]
  cases a.testBit i <;> cases b.testBit i <;> rfl

lemma land_lor_self_right (a b : Nat) : b &&& (a ||| b) = b := by
  apply Nat.eq_of_testBit_eq
  intro i
  simp only [Nat.testBit_and, Nat.testBit_or]
  cases a.testBit i <;> cases b.testBit i <;> rfl

lemma GenericParser_init_eq (o : ParserOptions) :
    GenericParser_init o = o.parser_flags ||| parserOptionsMask o := by
  simp only [GenericParser_init, lor_step]
  simp only [parserOptionsMask, Nat.lor_assoc]

lemma HTMLRenderer_init_eq (o : RendererOptions) :
    HTMLRenderer_init o =
      (o.parser_flags ||| parserOptionsMask (rendererParserOptions o),
       o.renderer_flags ||| rendererOptionsMask o) := by
  simp only [HTMLRenderer_init, lor_step]
  simp only [parserOptionsMask, rendererParserOptions, rendererOptionsMask,
    Nat.lor_assoc]

/-- C8: each flag translator produces exactly the bitwise OR of the raw mask
with one fixed flag constant per boolean set to true (the combination
options contribute their documented multi-bit constants).  Consequently the
result contains the raw mask and the whole per-option mask; instantiating
the theorem at a record in which some boolean is false shows that turning an
option off never clears a bit contributed by the raw mask or by another
option, since those bits are in `parser_flags ||| parserOptionsMask` of
that very record. -/
theorem flag_translator_or_of_raw_and_options (o : ParserOptions) (r : RendererOptions) :
    GenericParser_init o = o.parser_flags ||| parserOptionsMask o ∧
    o.parser_flags &&& GenericParser_init o = o.parser_flags ∧
    parserOptionsMask o &&& GenericParser_init o = parserOptionsMask o ∧
    (HTMLRenderer_init r).1 =
      r.parser_flags ||| parserOptionsMask (rendererParserOptions r) ∧
    r.parser_flags &&& (HTMLRenderer_init r).1 = r.parser_flags ∧
    parserOptionsMask (rendererParserOptions r) &&& (HTMLRenderer_init r).1 =
      parserOptionsMask (rendererParserOptions r) ∧
    (HTMLRenderer_init r).2 = r.renderer_flags ||| rendererOptionsMask r ∧
    r.renderer_flags &&& (HTMLRenderer_init r).2 = r.renderer_flags ∧
    rendererOptionsMask r &&& (HTMLRenderer_init r).2 = rendererOptionsMask r := by
  have h1 := GenericParser_init_eq o
  have h2 := HTMLRenderer_init_eq r
  refine ⟨h1, ?_, ?_, ?_, ?_, ?_, ?_, ?_, ?_⟩
  · rw [h1]; exact land_lor_self_left _ _
  · rw [h1]; exact land_lor_self_right _ _
  · rw [h2]
  · rw [h2]; exact land_lor_self_left _ _
  · rw [h2]; exact land_lor_self_right _ _
  · rw [h2]
  · rw [h2]; exact land_lor_self_left _ _
  · rw [h2]; exact land_lor_self_right _ _

/-! ## Enumerations and Python payload values -/

/-- The `MD_TEXTTYPE` (mirrored by the `md4c.TextType` Python enum). -/
inductive TextType where
  | normal | nullchar | br | softbr | entity | code | html | latexmath
deriving DecidableEq, Repr

/-- The `MD_BLOCKTYPE` (mirrored by the `md4c.BlockType` Python enum). -/
inductive BlockType where
  | doc | quote | ul | ol | li | hr | h | code | html | p
  | table | thead | tbody | tr | th | td
deriving DecidableEq, Repr

/-- The `MD_SPANTYPE` (mirrored by the `md4c.SpanType` Python enum). -/
inductive SpanType where
  | em | strong | a | img | codeSpan | del | latexmath | latexmathDisplay
  | wikilink | u
deriving DecidableEq, Repr

/-- The `MD_ALIGN` (mirrored by the `md4c.Align` Python enum). -/
inductive MD_ALIGN where
  | default | left | center | right
deriving DecidableEq, Repr

/-- A Python text payload: `Py_BuildValue` with format `"s#"` makes a `str`,
with `"y#"` a `bytes`, from the same underlying character data. -/
inductive PyText where
  | str (s : List Char)
  | bytes (s : List Char)
deriving DecidableEq, Repr

/-- The `is_bytes ? "y#" : "s#"` choice threaded through every payload
construction. -/
def mkPyText (is_bytes : Bool) (s : List Char) : PyText :=
  if is_bytes then .bytes s else .str s

/-- The character data behind a `str` or `bytes` payload (what `"s#"` in
`PyArg_ParseTuple` extracts from either kind of input object). -/
def PyText.data : PyText → List Char
  | .str s => s
  | .bytes s => s

/-- Whether the payload is a `bytes` object. -/
def PyText.isBytes : PyText → Bool
  | .str _ => false
  | .bytes _ => true

/-- A value stored in a details dict. -/
inductive PyVal where
  | pyNone
  | pyBool (b : Bool)
  | pyInt (n : Nat)
  | pyChar (c : Char)
  | pyAlign (a : MD_ALIGN)
  | pyAttr (items : List (TextType × PyText))
deriving DecidableEq, Repr

/-- A details dict, in the key order `Py_BuildValue` inserts the entries. -/
abbrev Detail : Type := List (String × PyVal)

/-! ## Attribute sub-run builder (`GenericParser_md_attribute`) -/

/-- The `MD_ATTRIBUTE` from `md4c.h`: `text = none` models a NULL `text`
pointer; `substr_types` and `substr_offsets` model the engine-provided
arrays. -/
structure MD_ATTRIBUTE where
  text : Option (List Char)
  size : Nat
  substr_types : List TextType
  substr_offsets : List Nat
deriving DecidableEq, Repr

/-- The item loop of `GenericParser_md_attribute`:
`for (i = 0; substr_offsets[i] != size; i++)` emits one
`(substr_types[i], text[substr_offsets[i] .. substr_offsets[i+1]))` pair
per iteration.  An out-of-bounds array read (possible only when the engine
violates its documented array shape) is modelled as ending the loop. -/
def attrItems (txt : List Char) (size : Nat) (is_bytes : Bool) :
    List TextType → List Nat → List (TextType × PyText)
  | ty :: tys, o1 :: o2 :: os =>
    if o1 = size then []
    else (ty, mkPyText is_bytes ((txt.drop o1).take (o2 - o1))) ::
      attrItems txt size is_bytes tys (o2 :: os)
  | _, _ => []

/-- The `GenericParser_md_attribute` on the success path of the Python API
calls: `None` for a NULL attribute, otherwise the list of
`(TextType, slice)` pairs. -/
def GenericParser_md_attribute (attr : MD_ATTRIBUTE) (is_bytes : Bool) : PyVal :=
  match attr.text with
  | none => .pyNone
  | some txt =>
    .pyAttr (attrItems txt attr.size is_bytes attr.substr_types attr.substr_offsets)

/-- The engine's documented shape of `substr_offsets`: strictly increasing,
ending exactly at the attribute's total size. -/
def offsetsOK (size : Nat) : List Nat → Bool
  | [] => false
  | [o] => o = size
  | o1 :: o2 :: os => o1 < o2 && offsetsOK size (o2 :: os)

lemma offsetsOK_head_le (size : Nat) :
    ∀ (o : Nat) (os : List Nat), offsetsOK size (o :: os) = true → o ≤ size := by
  intro o os
  induction os generalizing o with
  | nil => intro h; simp [offsetsOK] at h; omega
  | cons o2 os ih =>
    intro h
    simp only [offsetsOK, Bool.and_eq_true, decide_eq_true_eq] at h
    have := ih o2 h.2
    omega

lemma attrItems_spec (size : Nat) (is_bytes : Bool) :
    ∀ (offs : List Nat) (tys : List TextType) (txt : List Char) (o0 : Nat),
      txt.length = size → offsetsOK size offs = true →
      offs.length ≤ tys.length + 1 → offs.head? = some o0 →
      (attrItems txt size is_bytes tys offs).length = offs.length - 1 ∧
      ((attrItems txt size is_bytes tys offs).map (fun p => p.2.data)).flatten =
        txt.drop o0 := by
  intro offs
  induction offs with
  | nil => intro tys txt o0 _ hok; simp [offsetsOK] at hok
  | cons o1 rest ih =>
    intro tys txt o0 hlen hok hshape hhead
    have ho0 : o1 = o0 := by simpa using hhead
    subst ho0
    cases rest with
    | nil =>
      have h1 : o1 = size := by simpa [offsetsOK] using hok
      subst h1
      cases tys with
      | nil => simp [attrItems, hlen]
      | cons ty tys' => simp [attrItems, hlen]
    | cons o2 rest' =>
      simp only [offsetsOK, Bool.and_eq_true, decide_eq_true_eq] at hok
      have h12 : o1 < o2 := hok.1
      have h2size : o2 ≤ size := offsetsOK_head_le size o2 rest' hok.2
      have h1size : o1 ≠ size := by omega
      cases tys with
      | nil => simp at hshape
      | cons ty tys' =>
        have ihr := ih tys' txt o2 hlen hok.2 (by simpa using hshape) rfl
        constructor
        · simp only [attrItems, if_neg h1size, List.length_cons]
          rw [ihr.1]
          simp
        · simp only [attrItems, if_neg h1size, List.map_cons, List.flatten_cons]
          rw [ihr.2]
          have hdata : (mkPyText is_bytes ((txt.drop o1).take (o2 - o1))).data =
              (txt.drop o1).take (o2 - o1) := by
            cases is_bytes <;> simp [mkPyText, PyText.data]
          rw [hdata]
          have hdd : txt.drop o2 = (txt.drop o1).drop (o2 - o1) := by
            rw [List.drop_drop]
            congr 1
            omega
          rw [hdd, List.take_append_drop]

/-- C4: for an attribute with backing text whose offsets array has the
engine's documented shape (`offsets[0] = 0`, strictly increasing,
terminated by an entry equal to the attribute's size, one type per sub-run),
the builder returns exactly `N = offsets.length - 1` pairs, one per
consecutive offset pair, whose slices concatenate to the original text; and
for an attribute with no backing text it returns `None`. -/
theorem md_attribute_subruns (attr : MD_ATTRIBUTE) (is_bytes : Bool) :
    (attr.text = none → GenericParser_md_attribute attr is_bytes = .pyNone) ∧
    (∀ txt, attr.text = some txt → txt.length = attr.size →
      offsetsOK attr.size attr.substr_offsets = true →
      attr.substr_offsets.head? = some 0 →
      attr.substr_offsets.length ≤ attr.substr_types.length + 1 →
      GenericParser_md_attribute attr is_bytes =
        .pyAttr (attrItems txt attr.size is_bytes attr.substr_types
          attr.substr_offsets) ∧
      (attrItems txt attr.size is_bytes attr.substr_types
        attr.substr_offsets).length = attr.substr_offsets.length - 1 ∧
      ((attrItems txt attr.size is_bytes attr.substr_types
        attr.substr_offsets).map (fun p => p.2.data)).flatten = txt) := by
  constructor
  · intro h
    simp [GenericParser_md_attribute, h]
  · intro txt htxt hlen hok hhead hshape
    have h := attrItems_spec attr.size is_bytes attr.substr_offsets
      attr.substr_types txt 0 hlen hok hshape hhead
    exact ⟨by simp [GenericParser_md_attribute, htxt], h.1, by rw [h.2]; simp⟩

/-- Witness for `md_attribute_subruns`: the attribute `"a&amp;b"` with three
sub-runs `"a"`, `"&amp;"`, `"b"` (and the NULL-text case). -/
theorem md_attribute_subruns_witness :
    GenericParser_md_attribute
      { text := some ['a', '&', 'a', 'm', 'p', ';', 'b'], size := 7,
        substr_types := [.normal, .entity, .normal],
        substr_offsets := [0, 1, 6, 7] } false =
      .pyAttr [(.normal, .str ['a']), (.entity, .str ['&', 'a', 'm', 'p', ';']),
        (.normal, .str ['b'])] ∧
    GenericParser_md_attribute
      { text := none, size := 0, substr_types := [], substr_offsets := [] }
      true = .pyNone := by
  constructor
  · have h := (md_attribute_subruns
      { text := some ['a', '&', 'a', 'm', 'p', ';', 'b'], size := 7,
        substr_types := [.normal, .entity, .normal],
        substr_offsets := [0, 1, 6, 7] } false).2
      ['a', '&', 'a', 'm', 'p', ';', 'b'] rfl (by decide) (by decide) (by decide)
      (by decide)
    rw [h.1]
    rfl
  · exact (md_attribute_subruns _ true).1 rfl

/-! ## Event payload builder (`GenericParser_block` / `_span` / `_text`)

The C callbacks receive `(MD_BLOCKTYPE type, void *detail)` and switch on
`type` before casting `detail` to the per-kind struct.  Here the event
carries the per-kind struct directly (a tagged variant), which is the same
data the cast extracts on every well-typed engine event. -/

/-- The `MD_BLOCK_UL_DETAIL`. -/
structure MD_BLOCK_UL_DETAIL where
  is_tight : Bool
  mark : Char
deriving DecidableEq, Repr

/-- The `MD_BLOCK_OL_DETAIL`. -/
structure MD_BLOCK_OL_DETAIL where
  start : Nat
  is_tight : Bool
  mark_delimiter : Char
deriving DecidableEq, Repr

/-- The `MD_BLOCK_LI_DETAIL`. -/
structure MD_BLOCK_LI_DETAIL where
  is_task : Bool
  task_mark : Char
  task_mark_offset : Nat
deriving DecidableEq, Repr

/-- The `MD_BLOCK_H_DETAIL`. -/
structure MD_BLOCK_H_DETAIL where
  level : Nat
deriving DecidableEq, Repr

/-- The `MD_BLOCK_CODE_DETAIL`; `fence_char` is `'\0'` for an indented code
block. -/
structure MD_BLOCK_CODE_DETAIL where
  info : MD_ATTRIBUTE
  lang : MD_ATTRIBUTE
  fence_char : Char
deriving DecidableEq, Repr

/-- The `MD_BLOCK_TABLE_DETAIL`. -/
structure MD_BLOCK_TABLE_DETAIL where
  col_count : Nat
  head_row_count : Nat
  body_row_count : Nat
deriving DecidableEq, Repr

/-- The `MD_BLOCK_TD_DETAIL` (used for both TH and TD). -/
structure MD_BLOCK_TD_DETAIL where
  align : MD_ALIGN
deriving DecidableEq, Repr

/-- The `MD_SPAN_A_DETAIL`. -/
structure MD_SPAN_A_DETAIL where
  href : MD_ATTRIBUTE
  title : MD_ATTRIBUTE
deriving DecidableEq, Repr

/-- The `MD_SPAN_IMG_DETAIL`. -/
structure MD_SPAN_IMG_DETAIL where
  src : MD_ATTRIBUTE
  title : MD_ATTRIBUTE
deriving DecidableEq, Repr

/-- The `MD_SPAN_WIKILINK_DETAIL`. -/
structure MD_SPAN_WIKILINK_DETAIL where
  target : MD_ATTRIBUTE
deriving DecidableEq, Repr

/-- A block event pushed by the engine: the `MD_BLOCKTYPE` together with
the per-kind detail struct behind the `void *detail` pointer. -/
inductive BlockEvent where
  | doc | quote
  | ul (d : MD_BLOCK_UL_DETAIL)
  | ol (d : MD_BLOCK_OL_DETAIL)
  | li (d : MD_BLOCK_LI_DETAIL)
  | hr
  | h (d : MD_BLOCK_H_DETAIL)
  | code (d : MD_BLOCK_CODE_DETAIL)
  | html | p
  | table (d : MD_BLOCK_TABLE_DETAIL)
  | thead | tbody | tr
  | th (d : MD_BLOCK_TD_DETAIL)
  | td (d : MD_BLOCK_TD_DETAIL)

/-- The `MD_BLOCKTYPE` value of a block event (the first callback
argument). -/
def BlockEvent.type : BlockEvent → BlockType
  | .doc => .doc
  | .quote => .quote
  | .ul _ => .ul
  | .ol _ => .ol
  | .li _ => .li
  | .hr => .hr
  | .h _ => .h
  | .code _ => .code
  | .html => .html
  | .p => .p
  | .table _ => .table
  | .thead => .thead
  | .tbody => .tbody
  | .tr => .tr
  | .th _ => .th
  | .td _ => .td

/-- A span event pushed by the engine. -/
inductive SpanEvent where
  | em | strong
  | a (d : MD_SPAN_A_DETAIL)
  | img (d : MD_SPAN_IMG_DETAIL)
  | codeSpan | del | latexmath | latexmathDisplay
  | wikilink (d : MD_SPAN_WIKILINK_DETAIL)
  | u

/-- The `MD_SPANTYPE` value of a span event. -/
def SpanEvent.type : SpanEvent → SpanType
  | .em => .em
  | .strong => .strong
  | .a _ => .a
  | .img _ => .img
  | .codeSpan => .codeSpan
  | .del => .del
  | .latexmath => .latexmath
  | .latexmathDisplay => .latexmathDisplay
  | .wikilink _ => .wikilink
  | .u => .u

/-- The details dict built by the `switch` in `GenericParser_block`, in the
order `Py_BuildValue` inserts the keys. -/
def GenericParser_block_detail (ev : BlockEvent) (is_bytes : Bool) : Detail :=
  match ev with
  | .ul d => [("is_tight", .pyBool d.is_tight), ("mark", .pyChar d.mark)]
  | .ol d => [("start", .pyInt d.start), ("is_tight", .pyBool d.is_tight),
      ("mark_delimiter", .pyChar d.mark_delimiter)]
  | .li d =>
    if d.is_task then
      [("is_task", .pyBool true), ("task_mark", .pyChar d.task_mark),
        ("task_mark_offset", .pyInt d.task_mark_offset)]
    else
      [("is_task", .pyBool false)]
  | .h d => [("level", .pyInt d.level)]
  | .code d =>
    if d.fence_char = Char.ofNat 0 then
      [("fence_char", .pyNone)]
    else
      [("info", GenericParser_md_attribute d.info is_bytes),
        ("lang", GenericParser_md_attribute d.lang is_bytes),
        ("fence_char", .pyChar d.fence_char)]
  | .table d => [("col_count", .pyInt d.col_count),
      ("head_row_count", .pyInt d.head_row_count),
      ("body_row_count", .pyInt d.body_row_count)]
  | .th d => [("align", .pyAlign d.align)]
  | .td d => [("align", .pyAlign d.align)]
  | _ => []

/-- The details dict built by the `switch` in `GenericParser_span`. -/
def GenericParser_span_detail (ev : SpanEvent) (is_bytes : Bool) : Detail :=
  match ev with
  | .a d => [("href", GenericParser_md_attribute d.href is_bytes),
      ("title", GenericParser_md_attribute d.title is_bytes)]
  | .img d => [("src", GenericParser_md_attribute d.src is_bytes),
      ("title", GenericParser_md_attribute d.title is_bytes)]
  | .wikilink d => [("target", GenericParser_md_attribute d.target is_bytes)]
  | _ => []

/-! ## Callback dispatcher and cancellation protocol -/

/-- A Python exception, as far as `GenericParser.parse` distinguishes them:
the `StopParsing` sentinel, the module's `ParseError`, or any other
exception object (identified by `id`, propagated verbatim). -/
inductive PyExn where
  | stopParsing
  | parseError
  | exn (id : Nat)
deriving DecidableEq, Repr

/-- Outcome of one Python callback invocation: it either returns a value
(which `GenericParser_block`/`_span`/`_text` discard) or raises. -/
inductive HandlerOutcome where
  | ok
  | raise (e : PyExn)
deriving DecidableEq, Repr

/-- The `GenericParserCallbackData`: the five caller-supplied handlers plus the
`is_bytes` discriminator chosen once per parse call. -/
structure GenericParserCallbackData where
  enter_block_callback : BlockType → Detail → HandlerOutcome
  leave_block_callback : BlockType → Detail → HandlerOutcome
  enter_span_callback : SpanType → Detail → HandlerOutcome
  leave_span_callback : SpanType → Detail → HandlerOutcome
  text_callback : TextType → PyText → HandlerOutcome
  is_bytes : Bool

/-- The `GenericParser_block` from the callback's point of view: build the
payload, invoke the Python callback, and turn an exception into a nonzero
return (`some e` models "return -1 with `e` as the pending exception"). -/
def GenericParser_block (ev : BlockEvent)
    (python_callback : BlockType → Detail → HandlerOutcome)
    (is_bytes : Bool) : Option PyExn :=
  match python_callback ev.type (GenericParser_block_detail ev is_bytes) with
  | .ok => none
  | .raise e => some e

/-- The `GenericParser_span`. -/
def GenericParser_span (ev : SpanEvent)
    (python_callback : SpanType → Detail → HandlerOutcome)
    (is_bytes : Bool) : Option PyExn :=
  match python_callback ev.type (GenericParser_span_detail ev is_bytes) with
  | .ok => none
  | .raise e => some e

/-- The `GenericParser_text`: the payload is the text slice, built as `bytes`
or `str` according to the discriminator. -/
def GenericParser_text (t : TextType) (s : List Char)
    (cb_data : GenericParserCallbackData) : Option PyExn :=
  match cb_data.text_callback t (mkPyText cb_data.is_bytes s) with
  | .ok => none
  | .raise e => some e

/-- One event of the engine's push stream. -/
inductive Event where
  | enter_block (ev : BlockEvent)
  | leave_block (ev : BlockEvent)
  | enter_span (ev : SpanEvent)
  | leave_span (ev : SpanEvent)
  | text (t : TextType) (s : List Char)

/-- Dispatch of one event through the `MD_PARSER` callback table wired up
in `GenericParser_parse` (`GenericParser_enter_block` and friends). -/
def dispatchEvent (cb_data : GenericParserCallbackData) : Event → Option PyExn
  | .enter_block ev =>
    GenericParser_block ev cb_data.enter_block_callback cb_data.is_bytes
  | .leave_block ev =>
    GenericParser_block ev cb_data.leave_block_callback cb_data.is_bytes
  | .enter_span ev =>
    GenericParser_span ev cb_data.enter_span_callback cb_data.is_bytes
  | .leave_span ev =>
    GenericParser_span ev cb_data.leave_span_callback cb_data.is_bytes
  | .text t s => GenericParser_text t s cb_data

/-- The engine-side dispatch loop: push the events in order; each event is
exactly one handler invocation; a nonzero callback return aborts the loop
at once.  Returns the number of handler invocations and the pending
exception, if any. -/
def runEvents (cb_data : GenericParserCallbackData) :
    List Event → Nat × Option PyExn
  | [] => (0, none)
  | ev :: rest =>
    match dispatchEvent cb_data ev with
    | none =>
      let r := runEvents cb_data rest
      (r.1 + 1, r.2)
    | some e => (1, some e)

/-- The `md_parse`, the external engine, as the black box the spec describes:
it pushes its event stream through the callback table, aborts with a
nonzero return as soon as a callback returns nonzero, and otherwise returns
nonzero exactly when it hits an internal failure (`engine_fails`).  The
first component counts handler invocations. -/
def md_parse (events : List Event) (engine_fails : Bool)
    (cb_data : GenericParserCallbackData) : Nat × Option PyExn × Int :=
  match runEvents cb_data events with
  | (n, some e) => (n, some e, -1)
  | (n, none) => (n, none, if engine_fails then -1 else 0)

/-- The result the caller of `GenericParser.parse` observes. -/
inductive ParseOutcome where
  | success
  | raised (e : PyExn)
deriving DecidableEq, Repr

/-- The `GenericParser_parse` from the `md_parse` call onward: on a nonzero
engine result, a pending `StopParsing` is cleared and the call succeeds,
any other pending exception propagates, and with no pending exception the
generic `ParseError` is raised.  Paired with the handler invocation
count. -/
def GenericParser_parse (events : List Event) (engine_fails : Bool)
    (cb_data : GenericParserCallbackData) : Nat × ParseOutcome :=
  match md_parse events engine_fails cb_data with
  | (n, pending, result) =>
    if result ≠ 0 then
      match pending with
      | some e => if e = .stopParsing then (n, .success) else (n, .raised e)
      | none => (n, .raised .parseError)
    else (n, .success)

/-- The pending-exception component of the engine run. -/
def md_pendingExn (events : List Event) (engine_fails : Bool)
    (cb_data : GenericParserCallbackData) : Option PyExn :=
  (md_parse events engine_fails cb_data).2.1

/-- The `int` result of the engine run. -/
def md_result (events : List Event) (engine_fails : Bool)
    (cb_data : GenericParserCallbackData) : Int :=
  (md_parse events engine_fails cb_data).2.2

/-- What `GenericParser.parse` reports to its caller. -/
def parse_outcome (events : List Event) (engine_fails : Bool)
    (cb_data : GenericParserCallbackData) : ParseOutcome :=
  (GenericParser_parse events engine_fails cb_data).2

/-- Handler invocations performed by one parse call. -/
def parse_invocations (events : List Event) (engine_fails : Bool)
    (cb_data : GenericParserCallbackData) : Nat :=
  (GenericParser_parse events engine_fails cb_data).1

lemma runEvents_ok_leading (cb_data : GenericParserCallbackData)
    (pre : List Event) (suffix : List Event)
    (hpre : ∀ e ∈ pre, dispatchEvent cb_data e = none) :
    runEvents cb_data (pre ++ suffix) =
      ((runEvents cb_data suffix).1 + pre.length,
       (runEvents cb_data suffix).2) := by
  induction pre with
  | nil => simp
  | cons e pre ih =>
    have he : dispatchEvent cb_data e = none := hpre e (by simp)
    have ihr := ih (fun x hx => hpre x (by simp [hx]))
    simp only [List.cons_append, runEvents, List.append_eq, he, ihr]
    rw [Prod.ext_iff]
    exact ⟨by simp; omega, rfl⟩

lemma runEvents_raise_at (cb_data : GenericParserCallbackData)
    (pre rest : List Event) (ev : Event) (e : PyExn)
    (hpre : ∀ x ∈ pre, dispatchEvent cb_data x = none)
    (hev : dispatchEvent cb_data ev = some e) :
    runEvents cb_data (pre ++ ev :: rest) = (pre.length + 1, some e) := by
  rw [runEvents_ok_leading cb_data pre (ev :: rest) hpre]
  simp [runEvents, hev, Nat.add_comm]

/-- C1: if the handlers accept the first `k - 1` events and the `k`-th
handler invocation raises the `StopParsing` sentinel, then exactly `k`
invocations occur — the engine is never asked to push the remaining events,
so no further call into the engine or into any handler happens — and
`parse` returns normally with no error, whatever the engine's own status
would have been. -/
theorem cancellation_stops_with_success (events pre rest : List Event)
    (ev : Event) (cb_data : GenericParserCallbackData) (engine_fails : Bool)
    (k : Nat)
    (hsplit : events = pre ++ ev :: rest)
    (hpre : ∀ x ∈ pre, dispatchEvent cb_data x = none)
    (hev : dispatchEvent cb_data ev = some .stopParsing)
    (hk : k = pre.length + 1) :
    GenericParser_parse events engine_fails cb_data = (k, .success) := by
  subst hsplit hk
  have hrun := runEvents_raise_at cb_data pre rest ev .stopParsing hpre hev
  simp [GenericParser_parse, md_parse, hrun]

/-- Witness for `cancellation_stops_with_success`: a three-event stream
whose text handler raises `StopParsing` on the second text slice; the call
counts two invocations and succeeds even though the engine would have
failed afterwards. -/
theorem cancellation_stops_with_success_witness :
    GenericParser_parse
      [.text .normal ['a'], .text .normal ['b'], .text .normal ['c']] true
      { enter_block_callback := fun _ _ => .ok
        leave_block_callback := fun _ _ => .ok
        enter_span_callback := fun _ _ => .ok
        leave_span_callback := fun _ _ => .ok
        text_callback := fun _ s =>
          if s = PyText.str ['b'] then .raise .stopParsing else .ok
        is_bytes := false } = (2, .success) :=
  cancellation_stops_with_success _
    [.text .normal ['a']] [.text .normal ['c']] (.text .normal ['b']) _ true 2
    rfl (by decide) (by decide) rfl

/-- C2: if the handlers accept the first `k - 1` events and the `k`-th
handler invocation raises any non-`StopParsing` failure, then exactly `k`
invocations occur, dispatch stops at once, and that very exception — not a
wrapped or generic one — is what the caller of `parse` observes. -/
theorem handler_failure_propagates_verbatim (events pre rest : List Event)
    (ev : Event) (cb_data : GenericParserCallbackData) (engine_fails : Bool)
    (k : Nat) (e : PyExn)
    (hsplit : events = pre ++ ev :: rest)
    (hpre : ∀ x ∈ pre, dispatchEvent cb_data x = none)
    (hev : dispatchEvent cb_data ev = some e)
    (hne : e ≠ .stopParsing)
    (hk : k = pre.length + 1) :
    GenericParser_parse events engine_fails cb_data = (k, .raised e) := by
  subst hsplit hk
  have hrun := runEvents_raise_at cb_data pre rest ev e hpre hev
  simp [GenericParser_parse, md_parse, hrun, hne]

/-- Witness for `handler_failure_propagates_verbatim`: the second text
slice makes the handler raise exception 7; two invocations occur and
exception 7 itself reaches the caller. -/
theorem handler_failure_propagates_verbatim_witness :
    GenericParser_parse
      [.text .normal ['a'], .text .normal ['b'], .text .normal ['c']] false
      { enter_block_callback := fun _ _ => .ok
        leave_block_callback := fun _ _ => .ok
        enter_span_callback := fun _ _ => .ok
        leave_span_callback := fun _ _ => .ok
        text_callback := fun _ s =>
          if s = PyText.str ['b'] then .raise (.exn 7) else .ok
        is_bytes := false } = (2, .raised (.exn 7)) :=
  handler_failure_propagates_verbatim _
    [.text .normal ['a']] [.text .normal ['c']] (.text .normal ['b']) _ false 2
    (.exn 7) rfl (by decide) (by decide) (by decide) rfl

/-- C3: on a nonzero engine result the generic `ParseError` is raised
exactly when no handler exception is pending; a pending non-sentinel
handler exception always takes precedence and is the one the caller
observes, and the pending sentinel yields the protocol's success outcome —
in neither pending case does the caller see the generic `ParseError`
raised by `parse` itself. -/
theorem engine_failure_defers_to_pending_exception (events : List Event)
    (engine_fails : Bool) (cb_data : GenericParserCallbackData) :
    (md_result events engine_fails cb_data ≠ 0 →
      md_pendingExn events engine_fails cb_data = none →
      parse_outcome events engine_fails cb_data = .raised .parseError) ∧
    (∀ e, md_pendingExn events engine_fails cb_data = some e →
      e ≠ .stopParsing →
      parse_outcome events engine_fails cb_data = .raised e) ∧
    (md_pendingExn events engine_fails cb_data = some .stopParsing →
      parse_outcome events engine_fails cb_data = .success) ∧
    (md_result events engine_fails cb_data = 0 →
      parse_outcome events engine_fails cb_data = .success) := by
  unfold md_result md_pendingExn parse_outcome GenericParser_parse md_parse
  rcases hrun : runEvents cb_data events with ⟨n, p⟩
  cases p with
  | none =>
    cases engine_fails <;>
      simp
  | some e =>
    rcases he : decide (e = PyExn.stopParsing) with _ | _
    · have : e ≠ .stopParsing := of_decide_eq_false he
      simp [this]
    · have : e = .stopParsing := of_decide_eq_true he
      subst this
      simp

/-- Witness for `engine_failure_defers_to_pending_exception`: with no
events and a failing engine, no handler exception is pending and the
caller sees the generic `ParseError`. -/
theorem engine_failure_defers_to_pending_exception_witness :
    parse_outcome [] true
      { enter_block_callback := fun _ _ => .ok
        leave_block_callback := fun _ _ => .ok
        enter_span_callback := fun _ _ => .ok
        leave_span_callback := fun _ _ => .ok
        text_callback := fun _ _ => .ok
        is_bytes := false } = .raised .parseError :=
  (engine_failure_defers_to_pending_exception [] true _).1 (by decide) (by decide)

/-! ## Code-block details (C7) -/

/-- An `MD_ATTRIBUTE` whose `text` pointer is NULL, as the engine provides
for the `info`/`lang` of an indented code block. -/
def nullAttr : MD_ATTRIBUTE :=
  { text := none, size := 0, substr_types := [], substr_offsets := [] }

/-- Counterexample to C7 as stated: for an indented code block
(`fence_char == '\0'`) the built details dict is *not* free of the three
fields — it contains the key `"fence_char"` (with value `None`); only
`info` and `lang` are absent. -/
theorem code_block_detail_counterexample :
    (MD_BLOCK_CODE_DETAIL.mk nullAttr nullAttr (Char.ofNat 0)).fence_char =
      Char.ofNat 0 ∧
    GenericParser_block_detail
      (.code (MD_BLOCK_CODE_DETAIL.mk nullAttr nullAttr (Char.ofNat 0))) false =
      [("fence_char", .pyNone)] ∧
    "fence_char" ∈ (GenericParser_block_detail
      (.code (MD_BLOCK_CODE_DETAIL.mk nullAttr nullAttr (Char.ofNat 0))) false).map
        Prod.fst := by
  refine ⟨rfl, ?_, ?_⟩ <;> decide

/-- C7 as amended: the details dict built for an indented code block
contains neither `info` nor `lang` but does contain `fence_char`, mapped to
`None`; the dict built for a fenced code block contains all three fields,
`fence_char` being the fence character and `info`/`lang` the attribute runs
or `None`. -/
theorem code_block_detail_fields (d : MD_BLOCK_CODE_DETAIL) (is_bytes : Bool) :
    (d.fence_char = Char.ofNat 0 →
      GenericParser_block_detail (.code d) is_bytes =
        [("fence_char", .pyNone)]) ∧
    (d.fence_char ≠ Char.ofNat 0 →
      GenericParser_block_detail (.code d) is_bytes =
        [("info", GenericParser_md_attribute d.info is_bytes),
         ("lang", GenericParser_md_attribute d.lang is_bytes),
         ("fence_char", .pyChar d.fence_char)]) := by
  constructor <;> intro h <;> simp [GenericParser_block_detail, h]

/-- Witness for `code_block_detail_fields` at a concrete indented block and
a concrete backtick-fenced block. -/
theorem code_block_detail_fields_witness :
    GenericParser_block_detail
      (.code (MD_BLOCK_CODE_DETAIL.mk nullAttr nullAttr (Char.ofNat 0))) true =
      [("fence_char", .pyNone)] ∧
    GenericParser_block_detail
      (.code (MD_BLOCK_CODE_DETAIL.mk nullAttr nullAttr '`')) true =
      [("info", GenericParser_md_attribute nullAttr true),
       ("lang", GenericParser_md_attribute nullAttr true),
       ("fence_char", .pyChar '`')] :=
  ⟨(code_block_detail_fields _ true).1 rfl,
   (code_block_detail_fields _ true).2 (by decide)⟩

/-! ## Direct-render bridge (`HTMLRenderer_parse`, C6) -/

/-- The `HTMLRenderer_parse` from the argument parse onward.  `"s#"` in
`PyArg_ParseTuple` accepts a `str` or a read-only bytes-like object and
extracts the same `(char *, size)` view from either, so the input is a
`PyText`.  `md_html` is the external engine: a black box mapping the input
characters to the chunk list it feeds through
`HTMLRenderer_parse_callback` (each chunk appended to the buffer) and its
return status.  On `sts < 0` the `ParseError` is raised (`none`); otherwise
`Py_BuildValue("s#", buf.data, buf.pos)` builds the result — a `str`,
whatever the input was. -/
def HTMLRenderer_parse (md_html : List Char → List (List Char) × Int)
    (input : PyText) : Option PyText :=
  match md_html input.data with
  | (chunks, sts) =>
    let buf := chunks.foldl buffer_append buffer_init
    if sts < 0 then none
    else some (.str buf.data)

lemma HTMLRenderer_parse_single_chunk :
    HTMLRenderer_parse (fun _ => ([['x']], 0)) (PyText.bytes ['a']) =
      some (.str ['x']) := by
  have hd := (buffer_append_data buffer_init ['x']).1
  simp only [HTMLRenderer_parse, PyText.data, List.foldl_cons, List.foldl_nil]
  rw [hd]
  norm_num [buffer_init]

/-- Counterexample to C6 as stated: a successful direct-render call on
raw-byte input returns a `str`, not a `bytes` — the output encoding does
not match the input encoding. -/
theorem render_output_encoding_counterexample :
    HTMLRenderer_parse (fun _ => ([['x']], 0)) (PyText.bytes ['a']) =
      some (.str ['x']) ∧
    (PyText.bytes ['a']).isBytes = true ∧
    (PyText.str ['x']).isBytes = false :=
  ⟨HTMLRenderer_parse_single_chunk, rfl, rfl⟩

/-- C6 as amended: every successful direct-render call returns a text
(`str`) result — whose contents are the engine's concatenated output
chunks — regardless of whether the input was text or raw bytes. -/
theorem render_output_is_text (md_html : List Char → List (List Char) × Int)
    (input out : PyText)
    (h : HTMLRenderer_parse md_html input = some out) :
    out.isBytes = false ∧ out = .str (md_html input.data).1.flatten := by
  unfold HTMLRenderer_parse at h
  rcases he : md_html input.data with ⟨chunks, sts⟩
  rw [he] at h
  simp only at h
  split at h
  · exact absurd h (by simp)
  · have hdata := (buffer_foldl_append chunks buffer_init).1
    simp only [Option.some.injEq] at h
    subst h
    rw [hdata]
    simp [buffer_init, PyText.isBytes]

/-- Witness for `render_output_is_text` on byte input. -/
theorem render_output_is_text_witness :
    (PyText.str ['x']).isBytes = false ∧
    PyText.str ['x'] =
      .str ((fun (_ : List Char) => ([['x']], (0 : Int))) (PyText.bytes ['a']).data).1.flatten :=
  render_output_is_text (fun _ => ([['x']], 0)) (PyText.bytes ['a'])
    (.str ['x']) HTMLRenderer_parse_single_chunk

/-! ## `lookup_entity` (C10) -/

/-- The `char_to_int` from `generic_parser.c`. -/
def char_to_int (c : Char) : Nat :=
  match c with
  | '1' => 1
  | '2' => 2
  | '3' => 3
  | '4' => 4
  | '5' => 5
  | '6' => 6
  | '7' => 7
  | '8' => 8
  | '9' => 9
  | 'A' => 10
  | 'a' => 10
  | 'B' => 11
  | 'b' => 11
  | 'C' => 12
  | 'c' => 12
  | 'D' => 13
  | 'd' => 13
  | 'E' => 14
  | 'e' => 14
  | 'F' => 15
  | 'f' => 15
  | _ => 0

/-- A row of the named-entity table (`struct entity` from the engine's
`entity.h`): up to two codepoints, the second 0 when unused. -/
structure EntityRecord where
  codepoint0 : Nat
  codepoint1 : Nat
deriving DecidableEq, Repr

/-- What `lookup_entity` returns: either a freshly built string with the
given codepoints, or the very input object, unchanged. -/
inductive LookupResult where
  | built (codepoints : List Nat)
  | input
deriving DecidableEq, Repr

/-- The `Py_UCS4` is a 32-bit unsigned integer. -/
def UCS4_LIMIT : Nat := 2 ^ 32

/-- The `lookup_entity` from `generic_parser.c`, parameterized by the external
named-entity table `entity_lookup` (generated engine data, outside this
repository's sources).  The numeric branch is taken whenever
`entity_size > 3 && entity[1] == '#'`; the string built for it carries the
accumulated codepoint (allocation failure and invalid-codepoint failure of
`PyUnicode_New` are outside the success-path model, which the claim under
study never reaches). -/
def lookup_entity (entity_lookup : List Char → Option EntityRecord)
    (entity : List Char) : LookupResult :=
  if 3 < entity.length ∧ entity[1]? = some '#' then
    if entity[2]? = some 'x' ∨ entity[2]? = some 'X' then
      .built [((entity.drop 3).take (entity.length - 1 - 3)).foldl
        (fun cp c => (16 * cp + char_to_int c) % UCS4_LIMIT) 0]
    else
      .built [((entity.drop 2).take (entity.length - 1 - 2)).foldl
        (fun cp c => (10 * cp + char_to_int c) % UCS4_LIMIT) 0]
  else
    match entity_lookup entity with
    | none => .input
    | some ent =>
      if ent.codepoint1 = 0 then .built [ent.codepoint0]
      else .built [ent.codepoint0, ent.codepoint1]

/-- The claim's notion of a numeric entity, following its words — a string
of the form `&#...;` with length greater than 3 — rather than the code's
branch condition. -/
def numericEntityForm (s : List Char) : Bool :=
  decide (3 < s.length) && decide (s[0]? = some '&') &&
    decide (s[1]? = some '#') && decide (s.getLast? = some ';')

/-- Counterexample to C10 as stated: `"x#ab"` is not of the form `&#...;`,
and no named-entity table contains it (here the table returns `none` on
it), yet `lookup_entity` does not return the input unchanged: the code's
numeric-branch test looks only at the length and the second character, so
it builds the string with codepoint 10 (from char_to_int on the hex digit) instead. -/
theorem lookup_entity_counterexample :
    numericEntityForm ['x', '#', 'a', 'b'] = false ∧
    (fun (_ : List Char) => (none : Option EntityRecord)) ['x', '#', 'a', 'b'] =
      none ∧
    lookup_entity (fun _ => none) ['x', '#', 'a', 'b'] = .built [10] ∧
    lookup_entity (fun _ => none) ['x', '#', 'a', 'b'] ≠ .input := by
  refine ⟨by decide, rfl, by decide, by decide⟩

/-- C10 as amended: for every input that does not satisfy the code's
numeric-branch test (`length > 3` and second character `'#'`) and whose
text the named-entity table does not contain, `lookup_entity` returns the
input string itself unchanged, and no failing operation occurs on that
path. -/
theorem lookup_entity_identity_on_unknown
    (entity_lookup : List Char → Option EntityRecord) (s : List Char)
    (hshape : ¬(3 < s.length ∧ s[1]? = some '#'))
    (htbl : entity_lookup s = none) :
    lookup_entity entity_lookup s = .input := by
  rw [lookup_entity, if_neg hshape, htbl]

/-- Witness for `lookup_entity_identity_on_unknown`: `"&foo;"` with a table
that does not contain it. -/
theorem lookup_entity_identity_on_unknown_witness :
    lookup_entity (fun _ => none) ['&', 'f', 'o', 'o', ';'] = .input :=
  lookup_entity_identity_on_unknown (fun _ => none) ['&', 'f', 'o', 'o', ';']
    (by decide) rfl

end PyMD4C
